import Mathlib

/-!
Verification of the VulcanVariance movie-dataset cleaning pipeline.

The Python sources (src/notebooks/data_cleaning_script.py, src/create_notebooks.py,
src/create_eda_notebook.py) are shallowly embedded below: dataframes become lists of
rows of cells, the pandas column operations become explicit cell-level functions, and
the fallible archive-extraction path is modelled with Except.
-/

namespace VulcanVariance

/-! ## Cells and rows

A pandas cell is a string, a float (modelled as a rational; pandas NaN is identified
with the null cell), a datetime value, or missing (NaN/NaT). -/

/-- A pandas datetime value: either a calendar date parsed from a string, or a
timestamp obtained by pandas converting a raw number (epoch offset). The two
injections are kept separate; no claim compares timestamps across them. -/
inductive DateVal where
  | ymd (y m d : Nat)
  | epoch (q : Rat)
deriving DecidableEq

/-- One dataframe cell. -/
inductive Cell where
  | str (s : String)
  | num (q : Rat)
  | date (d : DateVal)
  | null
deriving DecidableEq

/-- Rows are full records; full-row equality is what pandas drop_duplicates uses
(NaN cells compare equal to NaN there, matching structural equality of `Cell.null`). -/
abbrev Row := List Cell

def Cell.isStr : Cell → Bool
  | .str _ => true
  | _ => false

/-! ## List helper lemmas (set / getD interaction) -/

theorem getD_set_self {α : Type} (r : List α) (j : Nat) (v d : α) (h : j < r.length) :
    (r.set j v).getD j d = v := by
  induction r generalizing j with
  | nil => simp at h
  | cons a t ih =>
    cases j with
    | zero => rfl
    | succ n => exact ih n (Nat.lt_of_succ_lt_succ h)

theorem getD_set_ne {α : Type} (r : List α) (j k : Nat) (v d : α) (h : j ≠ k) :
    (r.set k v).getD j d = r.getD j d := by
  induction r generalizing j k with
  | nil => rfl
  | cons a t ih =>
    cases k with
    | zero =>
      cases j with
      | zero => exact absurd rfl h
      | succ n => rfl
    | succ m =>
      cases j with
      | zero => rfl
      | succ n => exact ih n m (fun hc => h (by simp [hc]))

theorem set_of_length_le {α : Type} (r : List α) (k : Nat) (v : α) (h : r.length ≤ k) :
    r.set k v = r := by
  induction r generalizing k with
  | nil => rfl
  | cons a t ih =>
    cases k with
    | zero => simp at h
    | succ m => simp [List.set, ih m (Nat.le_of_succ_le_succ h)]

/-! ## Duplicate removal (pandas drop_duplicates / duplicated, keep="first") -/

/-- Keep-first duplicate removal: a row equal to an earlier row is dropped.
Models `DataFrame.drop_duplicates()`. -/
def drop_dups_aux (seen : List Row) : List Row → List Row
  | [] => []
  | r :: rs =>
    if r ∈ seen then drop_dups_aux (r :: seen) rs
    else r :: drop_dups_aux (r :: seen) rs

def drop_duplicates (l : List Row) : List Row := drop_dups_aux [] l

/-- Number of rows marked by `DataFrame.duplicated().sum()`: rows equal to some
earlier row. -/
def dup_count_aux (seen : List Row) : List Row → Nat
  | [] => 0
  | r :: rs => (if r ∈ seen then 1 else 0) + dup_count_aux (r :: seen) rs

def dup_count (l : List Row) : Nat := dup_count_aux [] l

theorem drop_dups_aux_length (l : List Row) :
    ∀ seen, (drop_dups_aux seen l).length + dup_count_aux seen l = l.length := by
  induction l with
  | nil => intro seen; rfl
  | cons r rs ih =>
    intro seen
    by_cases h : r ∈ seen
    · simp [drop_dups_aux, dup_count_aux, h]
      have := ih (r :: seen)
      omega
    · simp [drop_dups_aux, dup_count_aux, h]
      have := ih (r :: seen)
      omega

theorem drop_duplicates_length (l : List Row) :
    (drop_duplicates l).length + dup_count l = l.length :=
  drop_dups_aux_length l []

theorem drop_dups_aux_nodup_fresh (l : List Row) :
    ∀ seen, (drop_dups_aux seen l).Nodup ∧ ∀ a ∈ drop_dups_aux seen l, a ∉ seen := by
  induction l with
  | nil => intro seen; exact ⟨List.nodup_nil, by intro a ha; simp [drop_dups_aux] at ha⟩
  | cons r rs ih =>
    intro seen
    by_cases h : r ∈ seen
    · simp only [drop_dups_aux, if_pos h]
      refine ⟨(ih (r :: seen)).1, ?_⟩
      intro a ha
      have := (ih (r :: seen)).2 a ha
      intro hc; exact this (List.mem_cons_of_mem _ hc)
    · simp only [drop_dups_aux, if_neg h]
      obtain ⟨hnd, hfresh⟩ := ih (r :: seen)
      constructor
      · refine List.nodup_cons.mpr ⟨?_, hnd⟩
        intro hc
        exact (hfresh r hc) (List.mem_cons_self r seen)
      · intro a ha
        rcases List.mem_cons.mp ha with rfl | ha2
        · exact h
        · intro hc; exact hfresh a ha2 (List.mem_cons_of_mem _ hc)

theorem drop_dups_aux_fixed (l : List Row) :
    ∀ seen, (∀ a ∈ l, a ∉ seen) → l.Nodup → drop_dups_aux seen l = l := by
  induction l with
  | nil => intro seen _ _; rfl
  | cons r rs ih =>
    intro seen hfresh hnd
    have hr : r ∉ seen := hfresh r (List.mem_cons_self r rs)
    simp only [drop_dups_aux, if_neg hr]
    congr 1
    apply ih (r :: seen)
    · intro a ha
      intro hc
      rcases List.mem_cons.mp hc with rfl | hc2
      · exact (List.nodup_cons.mp hnd).1 ha
      · exact hfresh a (List.mem_cons_of_mem _ ha) hc2
    · exact (List.nodup_cons.mp hnd).2

theorem drop_duplicates_idem (l : List Row) :
    drop_duplicates (drop_duplicates l) = drop_duplicates l := by
  obtain ⟨hnd, hfresh⟩ := drop_dups_aux_nodup_fresh l []
  exact drop_dups_aux_fixed _ [] (by intro a _ hc; simp at hc) hnd

theorem dup_count_drop_duplicates (l : List Row) :
    dup_count (drop_duplicates l) = 0 := by
  have h1 := drop_duplicates_length (drop_duplicates l)
  rw [drop_duplicates_idem] at h1
  omega

/-! ## Column access and per-column maps -/

/-- The cells of column `j`, one per row (missing positions read as null). -/
def col_cells (j : Nat) (rows : List Row) : List Cell :=
  rows.map (fun r => r.getD j Cell.null)

/-- Overwrite column `j` by applying `f` to each of its cells;
models `df[col] = f(df[col])` for an elementwise `f`. -/
def map_col (j : Nat) (f : Cell → Cell) (rows : List Row) : List Row :=
  rows.map (fun r => r.set j (f (r.getD j Cell.null)))

theorem map_col_length (j : Nat) (f : Cell → Cell) (rows : List Row) :
    (map_col j f rows).length = rows.length := by
  simp [map_col]

/-- A column's dtype is `object` exactly when it still holds a string cell. -/
def is_object_col (j : Nat) (rows : List Row) : Bool :=
  (col_cells j rows).any Cell.isStr

theorem col_cells_map_col_self (j : Nat) (f : Cell → Cell) (rows : List Row)
    (hf : f Cell.null = Cell.null) :
    col_cells j (map_col j f rows) = (col_cells j rows).map f := by
  simp only [col_cells, map_col, List.map_map]
  apply List.map_congr_left
  intro r _
  by_cases h : j < r.length
  · simp only [Function.comp]
    rw [getD_set_self r j _ _ h]
  · simp only [Function.comp]
    rw [set_of_length_le r j _ (Nat.le_of_not_lt h)]
    have : r.getD j Cell.null = Cell.null := by
      simp [List.getD_eq_getElem?_getD, List.getElem?_eq_none (Nat.le_of_not_lt h)]
    rw [this, hf]

theorem col_cells_map_col_ne (j k : Nat) (f : Cell → Cell) (rows : List Row)
    (h : j ≠ k) :
    col_cells j (map_col k f rows) = col_cells j rows := by
  simp only [col_cells, map_col, List.map_map]
  apply List.map_congr_left
  intro r _
  exact getD_set_ne r j k _ _ h

theorem map_col_idem (j : Nat) (f : Cell → Cell) (rows : List Row)
    (hf : ∀ c, f (f c) = f c) :
    map_col j f (map_col j f rows) = map_col j f rows := by
  simp only [map_col, List.map_map]
  apply List.map_congr_left
  intro r _
  by_cases h : j < r.length
  · simp only [Function.comp]
    rw [getD_set_self r j _ _ h, hf, List.set_set]
  · simp only [Function.comp]
    rw [set_of_length_le r j _ (Nat.le_of_not_lt h),
        set_of_length_le r j _ (Nat.le_of_not_lt h)]

/-- Generic length preservation for a fold of length-preserving column steps. -/
theorem foldl_steps_length (step : List Row → Nat → List Row)
    (hstep : ∀ acc j, (step acc j).length = acc.length) :
    ∀ (idxs : List Nat) (rows : List Row), (idxs.foldl step rows).length = rows.length := by
  intro idxs
  induction idxs with
  | nil => intro rows; rfl
  | cons j js ih => intro rows; rw [List.foldl_cons, ih, hstep]

/-! ## String utilities (Python str.strip, str.lower, substring containment) -/

/-- Python str.strip() default whitespace characters (ASCII part). -/
def py_is_space (c : Char) : Bool :=
  c == ' ' || c == '\t' || c == '\n' || c == '\x0d' || c == '\x0b' || c == '\x0c'

def strip_list (l : List Char) : List Char :=
  ((l.dropWhile py_is_space).reverse.dropWhile py_is_space).reverse

/-- Python str.strip(): remove leading and trailing whitespace. -/
def strip_str (s : String) : String := String.mk (strip_list s.toList)

theorem head_dropWhile_not {α : Type} (p : α → Bool) (l : List α) (a : α)
    (h : (l.dropWhile p).head? = some a) : p a = false := by
  induction l with
  | nil => simp [List.dropWhile] at h
  | cons x t ih =>
    by_cases hp : p x
    · rw [List.dropWhile_cons_of_pos hp] at h
      exact ih h
    · rw [List.dropWhile_cons_of_neg hp] at h
      simp at h
      rw [← h]
      exact Bool.of_not_eq_true hp

theorem dropWhile_head_neg {α : Type} (p : α → Bool) (l : List α)
    (h : ∀ a, l.head? = some a → p a = false) : l.dropWhile p = l := by
  cases l with
  | nil => rfl
  | cons x t =>
    have := h x rfl
    rw [List.dropWhile_cons_of_neg (by rw [this]; simp)]

theorem dropWhile_idem {α : Type} (p : α → Bool) (l : List α) :
    (l.dropWhile p).dropWhile p = l.dropWhile p := by
  apply dropWhile_head_neg
  intro a ha
  exact head_dropWhile_not p l a ha

theorem strip_list_no_edge (l : List Char) :
    (∀ a, (strip_list l).head? = some a → py_is_space a = false) ∧
    (∀ a, (strip_list l).getLast? = some a → py_is_space a = false) := by
  constructor
  · intro a ha
    unfold strip_list at ha
    -- strip_list l is a prefix of l.dropWhile py_is_space, whose head is non-space
    have hsub : ((l.dropWhile py_is_space).reverse.dropWhile py_is_space).reverse <+:
        l.dropWhile py_is_space := by
      have h1 : (l.dropWhile py_is_space).reverse.dropWhile py_is_space <:+
          (l.dropWhile py_is_space).reverse := List.dropWhile_suffix py_is_space
      rcases h1 with ⟨t, ht⟩
      refine ⟨t.reverse, ?_⟩
      have h2 := congrArg List.reverse ht
      rw [List.reverse_append, List.reverse_reverse] at h2
      exact h2
    rcases hsub with ⟨t, ht⟩
    have hhead : (l.dropWhile py_is_space).head? = some a := by
      rw [← ht, List.head?_append_of_ne_nil _ (by intro hnil; rw [hnil] at ha; simp at ha)]
      exact ha
    exact head_dropWhile_not _ _ _ hhead
  · intro a ha
    unfold strip_list at ha
    rw [← List.head?_reverse, List.reverse_reverse] at ha
    exact head_dropWhile_not _ _ _ ha

theorem strip_list_idem (l : List Char) : strip_list (strip_list l) = strip_list l := by
  obtain ⟨h1, h2⟩ := strip_list_no_edge l
  show (((strip_list l).dropWhile py_is_space).reverse.dropWhile py_is_space).reverse
      = strip_list l
  rw [dropWhile_head_neg py_is_space (strip_list l) h1,
      dropWhile_head_neg py_is_space (strip_list l).reverse
        (by intro a ha; rw [List.head?_reverse] at ha; exact h2 a ha),
      List.reverse_reverse]

theorem strip_str_idem (s : String) : strip_str (strip_str s) = strip_str s := by
  unfold strip_str
  congr 1
  have h : (String.mk (strip_list s.toList)).toList = strip_list s.toList := rfl
  rw [h, strip_list_idem]

/-- The string has no leading and no trailing whitespace character. -/
def no_edge_space (s : String) : Bool :=
  (match s.toList.head? with
   | some a => !py_is_space a
   | none => true) &&
  (match s.toList.getLast? with
   | some a => !py_is_space a
   | none => true)

theorem no_edge_space_strip (s : String) : no_edge_space (strip_str s) = true := by
  unfold no_edge_space strip_str
  have htl : (String.mk (strip_list s.toList)).toList = strip_list s.toList := rfl
  rw [htl, Bool.and_eq_true]
  obtain ⟨h1, h2⟩ := strip_list_no_edge s.toList
  refine ⟨?_, ?_⟩
  · cases hc : (strip_list s.toList).head? with
    | none => rfl
    | some a => simp [h1 a hc]
  · cases hc : (strip_list s.toList).getLast? with
    | none => rfl
    | some a => simp [h2 a hc]

/-- Python str.lower() (ASCII lowercasing, as used on column names). -/
def py_lower (s : String) : String := String.mk (s.toList.map Char.toLower)

/-- `startsWithL hay pat`: `pat` begins `hay`. -/
def startsWithL : List Char → List Char → Bool
  | _, [] => true
  | [], _ :: _ => false
  | a :: as, b :: bs => a == b && startsWithL as bs

/-- Substring containment on char lists (Python `pat in hay`). -/
def containsL : List Char → List Char → Bool
  | [], pat => startsWithL [] pat
  | a :: as, pat => startsWithL (a :: as) pat || containsL as pat

/-- Python substring test `pat in hay`. -/
def str_contains (hay pat : String) : Bool := containsL hay.toList pat.toList

/-- Python `any(x in col.lower() for x in kws)`. -/
def lower_contains_any (name : String) (kws : List String) : Bool :=
  kws.any (fun k => str_contains (py_lower name) k)

/-! ## Numeric parsing (pandas `pd.to_numeric(..., errors="coerce")`)

Strings that fail to parse coerce to NaN; NaN is identified with the null cell.
The accepted grammar is optional surrounding whitespace, an optional sign, a
decimal mantissa (digits with an optional fractional part), and an optional
exponent. Results are exact rationals. -/

def digits_to_nat (l : List Char) : Nat :=
  l.foldl (fun a c => a * 10 + (c.toNat - 48)) 0

def all_digits (l : List Char) : Bool := l.all Char.isDigit

/-- Split a char list at every occurrence of `sep`. -/
def split_on_char_aux (sep : Char) : List Char → List Char → List (List Char)
  | [], cur => [cur.reverse]
  | c :: rest, cur =>
    if c == sep then cur.reverse :: split_on_char_aux sep rest []
    else split_on_char_aux sep rest (c :: cur)

def split_on_char (sep : Char) (l : List Char) : List (List Char) :=
  split_on_char_aux sep l []

/-- Split at the first char satisfying `p`: the part before, and (if found) after. -/
def split_first_aux (p : Char → Bool) : List Char → List Char → List Char × Option (List Char)
  | [], acc => (acc.reverse, none)
  | c :: rest, acc =>
    if p c then (acc.reverse, some rest)
    else split_first_aux p rest (c :: acc)

def split_first (p : Char → Bool) (l : List Char) : List Char × Option (List Char) :=
  split_first_aux p l []

/-- Unsigned decimal mantissa: `123`, `123.45`, `.5`, `5.`. -/
def parse_unsigned_chars (l : List Char) : Option Rat :=
  match split_on_char '.' l with
  | [intPart] =>
    if !intPart.isEmpty && all_digits intPart then some (digits_to_nat intPart) else none
  | [intPart, fracPart] =>
    if (!intPart.isEmpty || !fracPart.isEmpty) && all_digits intPart && all_digits fracPart
    then some ((digits_to_nat intPart : Rat)
                + (digits_to_nat fracPart : Rat) / ((10 : Rat) ^ fracPart.length))
    else none
  | _ => none

def parse_num_chars (l : List Char) : Option Rat :=
  let me := split_first (fun c => c == 'e' || c == 'E') l
  let ms := match me.1 with
    | '-' :: r => ((-1 : Rat), r)
    | '+' :: r => ((1 : Rat), r)
    | r => ((1 : Rat), r)
  match parse_unsigned_chars ms.2 with
  | none => none
  | some m =>
    match me.2 with
    | none => some (ms.1 * m)
    | some e =>
      let es := match e with
        | '-' :: r => (false, r)
        | '+' :: r => (true, r)
        | r => (true, r)
      if !es.2.isEmpty && all_digits es.2 then
        let n := digits_to_nat es.2
        some (if es.1 then ms.1 * m * (10 : Rat) ^ n else ms.1 * m / (10 : Rat) ^ n)
      else none

/-- `pd.to_numeric(s, errors="coerce")` on a single string (whitespace tolerated,
as by Python float conversion); `none` is the NaN result. -/
def parse_num (s : String) : Option Rat := parse_num_chars (strip_list s.toList)

/-! ## Cell stringification (pandas `.astype(str)`) -/

/-- Decimal rendering of a float cell by `str()`. The exact digit string of
numeric stringification is never inspected by any property proved here; only
string cells and the "nan" token matter to the claims. -/
def float_repr (q : Rat) : String := toString q

/-- `Series.astype(str)` on one cell: strings pass through, NaN becomes the
literal token "nan", other values are stringified. -/
def astype_str : Cell → String
  | .str s => s
  | .null => "nan"
  | .num q => float_repr q
  | .date (.ymd y m d) => toString y ++ "-" ++ toString m ++ "-" ++ toString d
  | .date (.epoch q) => float_repr q

/-! ## Field normalizers (one per column category) -/

/-- Remove every literal `$` and `,` character, as
`.str.replace(r"[$,]", "", regex=True)` does. -/
def remove_dollar_comma (s : String) : String :=
  String.mk (s.toList.filter (fun c => !(c == '$' || c == ',')))

/-- Monetary normalization of one cell:
`astype(str)`, strip `$` and `,`, then `to_numeric(errors="coerce")`. -/
def clean_money_cell (c : Cell) : Cell :=
  match parse_num (remove_dollar_comma (astype_str c)) with
  | some q => .num q
  | none => .null

/-- `pd.to_numeric(col, errors="coerce")` on one cell (no stringification:
non-string values convert directly; unconvertible values coerce to NaN). -/
def to_numeric_cell : Cell → Cell
  | .str s =>
    match parse_num s with
    | some q => .num q
    | none => .null
  | .num q => .num q
  | .null => .null
  | .date _ => .null

/-- Textual normalization of one cell: `astype(str)`, `.str.strip()`, then
`.replace("nan", np.nan)` turning the literal token "nan" back into null. -/
def clean_text_cell (c : Cell) : Cell :=
  let s := strip_str (astype_str c)
  if s = "nan" then .null else .str s

/-- ISO `YYYY-MM-DD` date parse; out-of-range or malformed values give none
(pandas `to_datetime(errors="coerce")` yields NaT). -/
def parse_date_iso (s : String) : Option DateVal :=
  match split_on_char '-' (strip_list s.toList) with
  | [y, m, d] =>
    if !y.isEmpty && !m.isEmpty && !d.isEmpty
        && all_digits y && all_digits m && all_digits d
        && decide (1 ≤ digits_to_nat m) && decide (digits_to_nat m ≤ 12)
        && decide (1 ≤ digits_to_nat d) && decide (digits_to_nat d ≤ 31)
    then some (.ymd (digits_to_nat y) (digits_to_nat m) (digits_to_nat d))
    else none
  | _ => none

/-- `pd.to_datetime(col, errors="coerce")` on one cell: strings parse to a
calendar date or NaT; raw numbers are interpreted as epoch offsets. -/
def to_datetime_cell : Cell → Cell
  | .str s =>
    match parse_date_iso s with
    | some d => .date d
    | none => .null
  | .num q => .date (.epoch q)
  | .null => .null
  | .date d => .date d

/-- Remove every literal `%` character, as `.str.replace("%", "")` does (it
replaces all occurrences, not only a suffix). -/
def remove_percent (s : String) : String :=
  String.mk (s.toList.filter (fun c => !(c == '%')))

/-- Rating normalization in `clean_rotten_tomatoes_info`:
`astype(str)`, remove `%`, then `to_numeric(errors="coerce")`. -/
def clean_rating_cell_info (c : Cell) : Cell :=
  match parse_num (remove_percent (astype_str c)) with
  | some q => .num q
  | none => .null

/-- Rating normalization in `clean_rotten_tomatoes_reviews`: a bare
`pd.to_numeric(col, errors="coerce")`, with no `%` handling. -/
def clean_rating_cell_reviews (c : Cell) : Cell := to_numeric_cell c

/-! ## Column classification (keyword sniffing on lowercased column names) -/

/-- Box office money keywords (line 134). -/
def bom_is_money (name : String) : Bool :=
  lower_contains_any name ["gross", "revenue", "budget", "sales"]

/-- Year keyword test, `"year" in col.lower()` (lines 143, 348). -/
def is_year_name (name : String) : Bool := str_contains (py_lower name) "year"

/-- Budgets money keywords (line 200). -/
def budgets_is_money (name : String) : Bool :=
  lower_contains_any name ["budget", "gross", "revenue"]

/-- Budgets date keywords (line 209). -/
def budgets_is_date (name : String) : Bool :=
  lower_contains_any name ["date", "release"]

/-- Budgets text guard (line 220): a text column is one not claimed by the
money or date keyword sets. -/
def budgets_text_guard (name : String) : Bool :=
  !budgets_is_money name && !budgets_is_date name

/-- TMDb numeric keywords (line 269). -/
def tmdb_is_numeric (name : String) : Bool :=
  lower_contains_any name
    ["budget", "revenue", "runtime", "vote_average", "vote_count", "popularity"]

/-- TMDb date keywords (line 276). -/
def tmdb_is_date (name : String) : Bool :=
  lower_contains_any name ["date", "release"]

/-- Rotten Tomatoes info rating keywords (line 338). -/
def rt_info_is_rating (name : String) : Bool :=
  lower_contains_any name ["rating", "score", "percent"]

/-- Rotten Tomatoes reviews rating keywords (line 406). -/
def reviews_is_rating (name : String) : Bool :=
  lower_contains_any name ["rating", "score"]

/-- Rotten Tomatoes reviews date keywords (line 413). -/
def reviews_is_date (name : String) : Bool :=
  lower_contains_any name ["date"]

/-- Indices of the columns whose name satisfies `p`. -/
def name_idxs (p : String → Bool) (header : List String) : List Nat :=
  (List.range header.length).filter (fun j => p (header.getD j ""))

/-! ## Dataset cleaners

Each mirrors one `clean_*` function of data_cleaning_script.py: load (given as
input), drop duplicate rows, then normalize column by column. Reporting
(prints) has no data effect and is omitted. -/

/-- A loaded dataframe: header of column names plus rows. -/
structure DataFrame where
  header : List String
  rows : List Row
deriving DecidableEq

/-- A money column is converted only while its dtype is object (lines 136-139,
202-205). -/
def money_col_step (f : Cell → Cell) (rows : List Row) (j : Nat) : List Row :=
  if is_object_col j rows then map_col j f rows else rows

/-- `clean_box_office_data`, lines 124-158: conditional dedup, money columns
(guarded by dtype), year columns, then text columns selected by object dtype
and not-money. -/
def bom_stage1 (rows : List Row) : List Row :=
  if dup_count rows > 0 then drop_duplicates rows else rows

def bom_stage2 (header : List String) (rows : List Row) : List Row :=
  (name_idxs bom_is_money header).foldl (money_col_step clean_money_cell) rows

def bom_stage3 (header : List String) (rows : List Row) : List Row :=
  (name_idxs is_year_name header).foldl (fun acc j => map_col j to_numeric_cell acc) rows

/-- Text-column selection for box office (lines 149-151): object dtype at this
point of the pipeline, excluding money-named columns. -/
def bom_text_cols (header : List String) (rows : List Row) : List Nat :=
  (List.range header.length).filter
    (fun j => is_object_col j rows && !bom_is_money (header.getD j ""))

def text_fold (idxs : List Nat) (rows : List Row) : List Row :=
  idxs.foldl (fun acc j => map_col j clean_text_cell acc) rows

def clean_box_office_rows (header : List String) (rows : List Row) : List Row :=
  let r1 := bom_stage1 rows
  let r2 := bom_stage2 header r1
  let r3 := bom_stage3 header r2
  text_fold (bom_text_cols header r3) r3

/-- `clean_movie_budgets_data`, lines 192-222. -/
def budgets_text_cols (header : List String) (rows : List Row) : List Nat :=
  (List.range header.length).filter
    (fun j => is_object_col j rows && budgets_text_guard (header.getD j ""))

def clean_movie_budgets_rows (header : List String) (rows : List Row) : List Row :=
  let r1 := drop_duplicates rows
  let r2 := (name_idxs budgets_is_money header).foldl (money_col_step clean_money_cell) r1
  let r3 := (name_idxs budgets_is_date header).foldl
    (fun acc j => map_col j to_datetime_cell acc) r2
  text_fold (budgets_text_cols header r3) r3

/-- `clean_tmdb_data`, lines 261-290: numeric columns converted
unconditionally, date columns, then text columns excluding only date names. -/
def tmdb_text_cols (header : List String) (rows : List Row) : List Nat :=
  (List.range header.length).filter
    (fun j => is_object_col j rows && !tmdb_is_date (header.getD j ""))

def clean_tmdb_rows (header : List String) (rows : List Row) : List Row :=
  let r1 := drop_duplicates rows
  let r2 := (name_idxs tmdb_is_numeric header).foldl
    (fun acc j => map_col j to_numeric_cell acc) r1
  let r3 := (name_idxs tmdb_is_date header).foldl
    (fun acc j => map_col j to_datetime_cell acc) r2
  text_fold (tmdb_text_cols header r3) r3

/-- `clean_rotten_tomatoes_info`, lines 330-359: rating columns (dtype-guarded
percent stripping), year columns, text columns excluding rating names. -/
def rt_info_text_cols (header : List String) (rows : List Row) : List Nat :=
  (List.range header.length).filter
    (fun j => is_object_col j rows && !rt_info_is_rating (header.getD j ""))

def clean_rt_info_rows (header : List String) (rows : List Row) : List Row :=
  let r1 := drop_duplicates rows
  let r2 := (name_idxs rt_info_is_rating header).foldl
    (money_col_step clean_rating_cell_info) r1
  let r3 := (name_idxs is_year_name header).foldl
    (fun acc j => map_col j to_numeric_cell acc) r2
  text_fold (rt_info_text_cols header r3) r3

/-- `clean_rotten_tomatoes_reviews`, lines 398-427: rating columns converted
unconditionally, date columns, text columns excluding date names. -/
def reviews_text_cols (header : List String) (rows : List Row) : List Nat :=
  (List.range header.length).filter
    (fun j => is_object_col j rows && !reviews_is_date (header.getD j ""))

def clean_reviews_rows (header : List String) (rows : List Row) : List Row :=
  let r1 := drop_duplicates rows
  let r2 := (name_idxs reviews_is_rating header).foldl
    (fun acc j => map_col j clean_rating_cell_reviews acc) r1
  let r3 := (name_idxs reviews_is_date header).foldl
    (fun acc j => map_col j to_datetime_cell acc) r2
  text_fold (reviews_text_cols header r3) r3

/-- Per-table cleaning inside `extract_and_clean_imdb_data`, lines 490-505:
dedup, text-clean every object column (no name guard), then convert every
column whose name is not among the selected text columns to numeric. -/
def imdb_text_names (header : List String) (rows : List Row) : List String :=
  ((List.range header.length).filter (fun j => is_object_col j rows)).map
    (fun j => header.getD j "")

def clean_imdb_table_rows (header : List String) (rows : List Row) : List Row :=
  let r1 := drop_duplicates rows
  let tnames := imdb_text_names header r1
  let r2 := text_fold ((List.range header.length).filter
    (fun j => is_object_col j r1)) r1
  ((List.range header.length).filter
    (fun j => !tnames.contains (header.getD j ""))).foldl
    (fun acc j => map_col j to_numeric_cell acc) r2

/-- Dataframe-level wrappers (the written CSV keeps the header and the cleaned
rows; `to_csv(index=False)` adds no row index). -/
def clean_box_office_df (df : DataFrame) : DataFrame :=
  ⟨df.header, clean_box_office_rows df.header df.rows⟩

def clean_movie_budgets_df (df : DataFrame) : DataFrame :=
  ⟨df.header, clean_movie_budgets_rows df.header df.rows⟩

def clean_tmdb_df (df : DataFrame) : DataFrame :=
  ⟨df.header, clean_tmdb_rows df.header df.rows⟩

def clean_rt_info_df (df : DataFrame) : DataFrame :=
  ⟨df.header, clean_rt_info_rows df.header df.rows⟩

def clean_reviews_df (df : DataFrame) : DataFrame :=
  ⟨df.header, clean_reviews_rows df.header df.rows⟩

def clean_imdb_table_df (df : DataFrame) : DataFrame :=
  ⟨df.header, clean_imdb_table_rows df.header df.rows⟩

/-! ## Archive Extractor (`extract_and_clean_imdb_data`, lines 437-517)

Filesystem and sqlite effects are modelled as inputs: the list of file names
found after extraction, and per-table read outcomes (a read can raise, e.g. an
unreadable table). `Except.error` stands for a propagating Python exception. -/

def ends_with_db (s : String) : Bool :=
  startsWithL s.toList.reverse (".db".toList.reverse)

/-- The per-table loop (lines 482-512): each table is read and cleaned in
order; the first raising read propagates and aborts the rest. -/
def read_tables_loop : List (String × Except String DataFrame) →
    Except String (List (String × DataFrame))
  | [] => .ok []
  | (n, t) :: rest =>
    match t with
    | .error e => .error e
    | .ok df =>
      match read_tables_loop rest with
      | .error e => .error e
      | .ok r => .ok ((n, clean_imdb_table_df df) :: r)

/-- The sqlite-connection portion of the extractor (lines 466-514): the
connection is opened, every table is read/cleaned, and `conn.close()` is the
next statement after the loop — there is no try/finally, so a raising read
skips the close. The boolean records whether the connection was closed when
the extractor returned or the exception propagated. -/
def imdb_connection_run (tables : List (String × Except String DataFrame)) :
    Except String (List (String × DataFrame)) × Bool :=
  match read_tables_loop tables with
  | .ok r => (.ok r, true)
  | .error e => (.error e, false)

/-- `extract_and_clean_imdb_data`: open the zip (raises if absent), extract,
glob `*.db`; with no database file it prints and returns None (lines 456-459);
otherwise it opens the database and processes every table. -/
def extract_and_clean_imdb_data (zipExists : Bool) (extractedFiles : List String)
    (tables : List (String × Except String DataFrame)) :
    Except String (Option (List (String × DataFrame))) :=
  if !zipExists then .error "im.db.zip not found"
  else if (extractedFiles.filter ends_with_db).isEmpty then .ok none
  else
    match read_tables_loop tables with
    | .error e => .error e
    | .ok r => .ok (some r)

/-! ## Whole pipeline (`__main__`, lines 567-593) -/

structure PipelineInput where
  bomRaw : DataFrame
  budgetsRaw : DataFrame
  tmdbRaw : DataFrame
  rtInfoRaw : DataFrame
  reviewsRaw : DataFrame
  zipExists : Bool
  extractedFiles : List String
  imdbTables : List (String × Except String DataFrame)

structure PipelineOutput where
  bom : DataFrame
  budgets : DataFrame
  tmdb : DataFrame
  rtInfo : DataFrame
  reviews : DataFrame
  imdb : Option (List (String × DataFrame))
  summary : List (String × Nat)

/-- `generate_cleaning_summary` (lines 519-564): lists every cleaned output
file with its row count. -/
def generate_cleaning_summary (bom budgets tmdb rtInfo reviews : DataFrame)
    (imdb : Option (List (String × DataFrame))) : List (String × Nat) :=
  [("bom_movie_gross_cleaned.csv", bom.rows.length),
   ("movie_budgets_cleaned.csv", budgets.rows.length),
   ("tmdb_movies_cleaned.csv", tmdb.rows.length),
   ("rt_movie_info_cleaned.csv", rtInfo.rows.length),
   ("rt_reviews_cleaned.csv", reviews.rows.length)] ++
  (match imdb with
   | none => []
   | some ts => ts.map (fun nt => ("imdb_" ++ nt.1 ++ "_cleaned.csv", nt.2.rows.length)))

/-- The main sequence: the five dataset cleaners, the archive extractor, then
the summary report. An uncaught exception in the extractor halts the run; a
missing database file does not (the extractor returns None and the run
continues). -/
def run_pipeline (inp : PipelineInput) : Except String PipelineOutput :=
  let bom := clean_box_office_df inp.bomRaw
  let budgets := clean_movie_budgets_df inp.budgetsRaw
  let tmdb := clean_tmdb_df inp.tmdbRaw
  let rtInfo := clean_rt_info_df inp.rtInfoRaw
  let reviews := clean_reviews_df inp.reviewsRaw
  match extract_and_clean_imdb_data inp.zipExists inp.extractedFiles inp.imdbTables with
  | .error e => .error e
  | .ok imdbRes =>
    .ok { bom := bom, budgets := budgets, tmdb := tmdb, rtInfo := rtInfo,
          reviews := reviews, imdb := imdbRes,
          summary := generate_cleaning_summary bom budgets tmdb rtInfo reviews imdbRes }

/-! ## Notebook Builder (src/create_notebooks.py, src/create_eda_notebook.py)

The two scripts construct fixed notebook documents as nested literals and
serialize them as JSON; the embedding keeps the parsed tree. A code cell
carries `execution_count` (null in the sources) and `outputs` (empty in the
sources); cell metadata dicts are empty. -/

inductive NbCell where
  | markdown (metadata : List (String × String)) (source : List String)
  | code (execution_count : Option Nat) (metadata : List (String × String))
      (outputs : List String) (source : List String)
deriving DecidableEq

def NbCell.isMarkdown : NbCell → Bool
  | .markdown _ _ => true
  | _ => false

def NbCell.isCode : NbCell → Bool
  | .code _ _ _ _ => true
  | _ => false

def NbCell.outputsOf : NbCell → List String
  | .code _ _ outs _ => outs
  | .markdown _ _ => []

def NbCell.execCountOf : NbCell → Option Nat
  | .code ec _ _ _ => ec
  | .markdown _ _ => none

structure KernelSpec where
  display_name : String
  language : String
  name : String
deriving DecidableEq

structure CodeMirrorMode where
  name : String
  version : Nat
deriving DecidableEq

structure LanguageInfo where
  codemirror_mode : CodeMirrorMode
  file_extension : String
  name : String
  nbconvert_exporter : String
  pygments_lexer : String
  version : String
deriving DecidableEq

structure NbMetadata where
  kernelspec : KernelSpec
  language_info : LanguageInfo
deriving DecidableEq

structure Notebook where
  cells : List NbCell
  metadata : NbMetadata
  nbformat : Nat
  nbformat_minor : Nat
deriving DecidableEq

def create_cleaning_notebook : Notebook where
  cells := [
  .markdown []
    ["# Movie Dataset Cleaning Pipeline\n",
     "## Comprehensive Data Cleaning for EDA Project\n",
     "\n",
     "This notebook systematically cleans all movie datasets from the \x60Original_Data\x60 folder and exports clean, analysis-ready datasets.\n",
     "\n",
     "### 📋 Datasets to Process:\n",
     "1. **Box Office Mojo** (\x60bom.movie_gross.csv.gz\x60) - Box office gross earnings\n",
     "2. **TMDb Movies** (\x60tmdb.movies.csv.gz\x60) - The Movie Database metadata\n",
     "3. **Movie Budgets** (\x60tn.movie_budgets.csv.gz\x60) - Production budgets and revenues\n",
     "4. **Rotten Tomatoes Info** (\x60rt.movie_info.tsv.gz\x60) - Movie ratings and metadata\n",
     "5. **Rotten Tomatoes Reviews** (\x60rt.reviews.tsv\x60) - Individual movie reviews\n",
     "6. **IMDb Database** (\x60im.db.zip\x60) - Comprehensive movie database\n",
     "\n",
     "### 🎯 Cleaning Objectives:\n",
     "- Handle missing values appropriately\n",
     "- Standardize data types and formats\n",
     "- Remove duplicates\n",
     "- Clean financial data (currency formatting)\n",
     "- Validate and correct data inconsistencies\n",
     "- Export clean datasets for analysis"],
  .code none [] []
    ["# Import required libraries\n",
     "import pandas as pd\n",
     "import numpy as np\n",
     "import sqlite3\n",
     "import zipfile\n",
     "import gzip\n",
     "import warnings\n",
     "from pathlib import Path\n",
     "import re\n",
     "\n",
     "# Configure pandas for better display\n",
     "pd.set_option(\x27display.max_columns\x27, None)\n",
     "pd.set_option(\x27display.width\x27, None)\n",
     "pd.set_option(\x27display.max_rows\x27, 100)\n",
     "warnings.filterwarnings(\x27ignore\x27)\n",
     "\n",
     "# Create directories\n",
     "Path(\x27cleaned_data\x27).mkdir(exist_ok=True)\n",
     "\n",
     "print(\"✅ Environment setup complete!\")\n",
     "print(f\"📁 Working directory: \x7bPath.cwd()\x7d\")"]]
  metadata :=
    { kernelspec := { display_name := "Python 3", language := "python",
                      name := "python3" },
      language_info :=
        { codemirror_mode := { name := "ipython", version := 3 },
          file_extension := ".py", name := "python",
          nbconvert_exporter := "python",
          pygments_lexer := "ipython3", version := "3.8.0" } }
  nbformat := 4
  nbformat_minor := 4

def create_eda_notebook : Notebook where
  cells := [
  .markdown []
    ["# Movie Industry Exploratory Data Analysis\n",
     "## Comprehensive Analysis of Movie Performance, Ratings, and Financial Data\n",
     "\n",
     "This notebook performs thorough exploratory data analysis on cleaned movie datasets to uncover insights about:\n",
     "\n",
     "### 🎯 Analysis Objectives:\n",
     "- **Movie Performance Trends** - Box office performance over time\n",
     "- **Rating Patterns** - TMDb and Rotten Tomatoes rating distributions\n",
     "- **Financial Analysis** - Budget vs revenue relationships\n",
     "- **Genre Analysis** - Popular genres and their performance\n",
     "- **Studio Analysis** - Top performing studios and distributors\n",
     "- **Temporal Trends** - Movie industry evolution over years\n",
     "\n",
     "### 📋 Cleaned Datasets Used:\n",
     "- **TMDb Movies** (26,517 records) - Movie metadata, ratings, popularity\n",
     "- **Movie Budgets** (5,782 records) - Production budgets and revenues\n",
     "- **Box Office Mojo** (3,387 records) - Domestic and foreign gross earnings\n",
     "- **Rotten Tomatoes** (1,560 records) - Critical ratings and movie info"],
  .code none [] []
    ["# Import required libraries for comprehensive EDA\n",
     "import pandas as pd\n",
     "import numpy as np\n",
     "import matplotlib.pyplot as plt\n",
     "import seaborn as sns\n",
     "import plotly.express as px\n",
     "import plotly.graph_objects as go\n",
     "from plotly.subplots import make_subplots\n",
     "import warnings\n",
     "from pathlib import Path\n",
     "from datetime import datetime\n",
     "import re\n",
     "\n",
     "# Configure visualization settings\n",
     "plt.style.use(\x27seaborn-v0_8\x27)\n",
     "sns.set_palette(\"husl\")\n",
     "plt.rcParams[\x27figure.figsize\x27] = (12, 8)\n",
     "pd.set_option(\x27display.max_columns\x27, None)\n",
     "warnings.filterwarnings(\x27ignore\x27)\n",
     "\n",
     "print(\"✅ Libraries imported successfully!\")\n",
     "print(f\"📊 Analysis environment ready\")"],
  .markdown []
    ["## Data Loading and Initial Overview\n",
     "\n",
     "Loading all cleaned datasets and performing initial data quality checks."],
  .code none [] []
    ["# Load all cleaned datasets\n",
     "print(\"📂 Loading cleaned datasets...\")\n",
     "print(\"=\" * 40)\n",
     "\n",
     "# Load datasets\n",
     "tmdb_df = pd.read_csv(\x27cleaned_data/tmdb_movies_cleaned.csv\x27)\n",
     "budgets_df = pd.read_csv(\x27cleaned_data/movie_budgets_cleaned.csv\x27)\n",
     "bom_df = pd.read_csv(\x27cleaned_data/box_office_mojo_cleaned.csv\x27)\n",
     "rt_df = pd.read_csv(\x27cleaned_data/rotten_tomatoes_info_cleaned.csv\x27)\n",
     "\n",
     "# Convert date columns\n",
     "tmdb_df[\x27release_date\x27] = pd.to_datetime(tmdb_df[\x27release_date\x27])\n",
     "budgets_df[\x27release_date\x27] = pd.to_datetime(budgets_df[\x27release_date\x27])\n",
     "\n",
     "datasets = \x7b\n",
     "    \x27TMDb Movies\x27: tmdb_df,\n",
     "    \x27Movie Budgets\x27: budgets_df,\n",
     "    \x27Box Office Mojo\x27: bom_df,\n",
     "    \x27Rotten Tomatoes\x27: rt_df\n",
     "\x7d\n",
     "\n",
     "# Display basic info for each dataset\n",
     "for name, df in datasets.items():\n",
     "    print(f\"\\n📊 \x7bname\x7d:\")\n",
     "    print(f\"   Shape: \x7bdf.shape[0]:,\x7d rows × \x7bdf.shape[1]\x7d columns\")\n",
     "    print(f\"   Columns: \x7blist(df.columns)\x7d\")\n",
     "    print(f\"   Memory usage: \x7bdf.memory_usage(deep=True).sum() / 1024**2:.1f\x7d MB\")\n",
     "\n",
     "print(\"\\n✅ All datasets loaded successfully!\")"]]
  metadata :=
    { kernelspec := { display_name := "Python 3", language := "python",
                      name := "python3" },
      language_info :=
        { codemirror_mode := { name := "ipython", version := 3 },
          file_extension := ".py", name := "python",
          nbconvert_exporter := "python",
          pygments_lexer := "ipython3", version := "3.8.0" } }
  nbformat := 4
  nbformat_minor := 4


/-! ## Helper lemmas about the cleaners -/

theorem dup_count_le (l : List Row) : dup_count l ≤ l.length := by
  have := drop_duplicates_length l
  omega

theorem drop_duplicates_length_sub (l : List Row) :
    (drop_duplicates l).length = l.length - dup_count l := by
  have := drop_duplicates_length l
  omega

theorem money_col_step_length (f : Cell → Cell) (rows : List Row) (j : Nat) :
    (money_col_step f rows j).length = rows.length := by
  unfold money_col_step
  split
  · exact map_col_length j f rows
  · rfl

theorem foldl_map_col_length (f : Cell → Cell) (idxs : List Nat) (rows : List Row) :
    (idxs.foldl (fun acc j => map_col j f acc) rows).length = rows.length :=
  foldl_steps_length _ (fun acc j => map_col_length j f acc) idxs rows

theorem text_fold_length (idxs : List Nat) (rows : List Row) :
    (text_fold idxs rows).length = rows.length :=
  foldl_steps_length _ (fun acc j => map_col_length j clean_text_cell acc) idxs rows

theorem bom_stage1_length (rows : List Row) :
    (bom_stage1 rows).length = rows.length - dup_count rows := by
  unfold bom_stage1
  split
  · exact drop_duplicates_length_sub rows
  · omega

theorem clean_box_office_rows_length (header : List String) (rows : List Row) :
    (clean_box_office_rows header rows).length = rows.length - dup_count rows := by
  unfold clean_box_office_rows bom_stage3 bom_stage2
  rw [text_fold_length, foldl_map_col_length,
      foldl_steps_length _ (money_col_step_length clean_money_cell)]
  exact bom_stage1_length rows

theorem clean_movie_budgets_rows_length (header : List String) (rows : List Row) :
    (clean_movie_budgets_rows header rows).length = rows.length - dup_count rows := by
  unfold clean_movie_budgets_rows
  rw [text_fold_length, foldl_map_col_length,
      foldl_steps_length _ (money_col_step_length clean_money_cell)]
  exact drop_duplicates_length_sub rows

theorem clean_tmdb_rows_length (header : List String) (rows : List Row) :
    (clean_tmdb_rows header rows).length = rows.length - dup_count rows := by
  unfold clean_tmdb_rows
  rw [text_fold_length, foldl_map_col_length, foldl_map_col_length]
  exact drop_duplicates_length_sub rows

theorem clean_rt_info_rows_length (header : List String) (rows : List Row) :
    (clean_rt_info_rows header rows).length = rows.length - dup_count rows := by
  unfold clean_rt_info_rows
  rw [text_fold_length, foldl_map_col_length,
      foldl_steps_length _ (money_col_step_length clean_rating_cell_info)]
  exact drop_duplicates_length_sub rows

theorem clean_reviews_rows_length (header : List String) (rows : List Row) :
    (clean_reviews_rows header rows).length = rows.length - dup_count rows := by
  unfold clean_reviews_rows
  rw [text_fold_length, foldl_map_col_length, foldl_map_col_length]
  exact drop_duplicates_length_sub rows

theorem clean_imdb_table_rows_length (header : List String) (rows : List Row) :
    (clean_imdb_table_rows header rows).length = rows.length - dup_count rows := by
  unfold clean_imdb_table_rows
  rw [foldl_map_col_length, text_fold_length]
  exact drop_duplicates_length_sub rows

/-! ## Cell-level facts about the normalizers -/

theorem clean_money_cell_null : clean_money_cell Cell.null = Cell.null := by decide

theorem clean_money_cell_not_str (c : Cell) : (clean_money_cell c).isStr = false := by
  unfold clean_money_cell
  cases parse_num (remove_dollar_comma (astype_str c)) <;> rfl

theorem clean_rating_cell_info_null : clean_rating_cell_info Cell.null = Cell.null := by
  decide

theorem clean_rating_cell_info_not_str (c : Cell) :
    (clean_rating_cell_info c).isStr = false := by
  unfold clean_rating_cell_info
  cases parse_num (remove_percent (astype_str c)) <;> rfl

theorem to_numeric_cell_idem (c : Cell) :
    to_numeric_cell (to_numeric_cell c) = to_numeric_cell c := by
  cases c with
  | str s =>
    cases h : parse_num s <;> simp [to_numeric_cell, h]
  | num q => rfl
  | date d => rfl
  | null => rfl

theorem strip_str_nan : strip_str "nan" = "nan" := by decide

theorem clean_text_cell_null : clean_text_cell Cell.null = Cell.null := by decide

theorem clean_text_cell_idem (c : Cell) :
    clean_text_cell (clean_text_cell c) = clean_text_cell c := by
  unfold clean_text_cell
  by_cases h : strip_str (astype_str c) = "nan"
  · simp only [h, if_pos rfl]
    show (if strip_str (astype_str Cell.null) = "nan" then Cell.null
          else Cell.str (strip_str (astype_str Cell.null))) = Cell.null
    have ha : astype_str Cell.null = "nan" := rfl
    rw [ha, strip_str_nan]
    simp
  · simp only [if_neg h]
    show (if strip_str (astype_str (Cell.str (strip_str (astype_str c)))) = "nan" then Cell.null
          else Cell.str (strip_str (astype_str (Cell.str (strip_str (astype_str c))))))
        = Cell.str (strip_str (astype_str c))
    have ha : astype_str (Cell.str (strip_str (astype_str c))) = strip_str (astype_str c) := rfl
    rw [ha, strip_str_idem, if_neg h]

/-- The well-formedness of a cell of a cleaned text column: null, or a string
with no edge whitespace that is not the literal token "nan". -/
def is_clean_text (c : Cell) : Bool :=
  match c with
  | .null => true
  | .str s => no_edge_space s && s != "nan"
  | _ => false

theorem clean_text_cell_clean (c : Cell) : is_clean_text (clean_text_cell c) = true := by
  unfold clean_text_cell
  by_cases h : strip_str (astype_str c) = "nan"
  · simp [h, is_clean_text]
  · simp only [if_neg h, is_clean_text, Bool.and_eq_true]
    exact ⟨no_edge_space_strip _, by simp [h]⟩

theorem text_fold_col_ne (J : List Nat) :
    ∀ (rows : List Row) (j : Nat), j ∉ J →
      col_cells j (text_fold J rows) = col_cells j rows := by
  induction J with
  | nil => intro rows j _; rfl
  | cons k rest ih =>
    intro rows j hj
    have hjk : j ≠ k := fun hc => hj (hc ▸ List.mem_cons_self k rest)
    have hjr : j ∉ rest := fun hc => hj (List.mem_cons_of_mem k hc)
    show col_cells j (text_fold rest (map_col k clean_text_cell rows)) = col_cells j rows
    rw [ih _ j hjr, col_cells_map_col_ne j k _ rows hjk]

theorem text_fold_col_clean (J : List Nat) :
    ∀ (rows : List Row) (j : Nat), j ∈ J →
      ∀ c ∈ col_cells j (text_fold J rows), is_clean_text c = true := by
  induction J with
  | nil => intro rows j hj; exact absurd hj (List.not_mem_nil j)
  | cons k rest ih =>
    intro rows j hj c hc
    by_cases hjr : j ∈ rest
    · exact ih _ j hjr c hc
    · have hjk : j = k := by
        rcases List.mem_cons.mp hj with h | h
        · exact h
        · exact absurd h hjr
      subst hjk
      rw [show text_fold (j :: rest) rows
            = text_fold rest (map_col j clean_text_cell rows) from rfl,
          text_fold_col_ne rest _ j hjr,
          col_cells_map_col_self j _ rows clean_text_cell_null] at hc
      rcases List.mem_map.mp hc with ⟨x, _, rfl⟩
      exact clean_text_cell_clean x

theorem money_col_step_idem (f : Cell → Cell) (hnull : f Cell.null = Cell.null)
    (hstr : ∀ c, (f c).isStr = false) (rows : List Row) (j : Nat) :
    money_col_step f (money_col_step f rows j) j = money_col_step f rows j := by
  by_cases hobj : is_object_col j rows = true
  · have h1 : money_col_step f rows j = map_col j f rows := by
      unfold money_col_step
      rw [if_pos hobj]
    have h2 : is_object_col j (map_col j f rows) = false := by
      unfold is_object_col
      rw [col_cells_map_col_self j f rows hnull, List.any_map]
      rw [List.any_eq_false]
      intro x _
      simp [Function.comp, hstr x]
    rw [h1]
    unfold money_col_step
    rw [h2]
    simp
  · have h1 : money_col_step f rows j = rows := by
      unfold money_col_step
      rw [if_neg hobj]
    rw [h1, h1]

theorem bom_stage1_idem (rows : List Row) :
    bom_stage1 (bom_stage1 rows) = bom_stage1 rows := by
  by_cases h : dup_count rows > 0
  · have h1 : bom_stage1 rows = drop_duplicates rows := by
      unfold bom_stage1
      rw [if_pos h]
    rw [h1]
    unfold bom_stage1
    rw [if_neg (by rw [dup_count_drop_duplicates]; omega)]
  · have h1 : bom_stage1 rows = rows := by
      unfold bom_stage1
      rw [if_neg h]
    rw [h1, h1]

theorem remove_dollar_comma_chars (s : String) (c : Char)
    (h : c ∈ (remove_dollar_comma s).toList) : c ≠ '$' ∧ c ≠ ',' := by
  have hm : c ∈ s.toList.filter (fun c => !(c == '$' || c == ',')) := h
  have hp := (List.mem_filter.mp hm).2
  simp only [Bool.not_eq_true', Bool.or_eq_false_iff, beq_eq_false_iff_ne] at hp
  exact hp

theorem remove_percent_chars (s : String) (c : Char)
    (h : c ∈ (remove_percent s).toList) : c ≠ '%' := by
  have hm : c ∈ s.toList.filter (fun c => !(c == '%')) := h
  have hp := (List.mem_filter.mp hm).2
  simp only [Bool.not_eq_true', beq_eq_false_iff_ne] at hp
  exact hp

theorem clean_money_cell_total (c : Cell) :
    clean_money_cell c = Cell.null ∨ ∃ q, clean_money_cell c = Cell.num q := by
  unfold clean_money_cell
  cases h : parse_num (remove_dollar_comma (astype_str c))
  · exact Or.inl rfl
  · exact Or.inr ⟨_, rfl⟩

theorem clean_rating_cell_info_total (c : Cell) :
    clean_rating_cell_info c = Cell.null ∨ ∃ q, clean_rating_cell_info c = Cell.num q := by
  unfold clean_rating_cell_info
  cases h : parse_num (remove_percent (astype_str c))
  · exact Or.inl rfl
  · exact Or.inr ⟨_, rfl⟩

theorem money_col_step_object (f : Cell → Cell) (rows : List Row) (j : Nat)
    (hnull : f Cell.null = Cell.null) (h : is_object_col j rows = true) :
    col_cells j (money_col_step f rows j) = (col_cells j rows).map f := by
  unfold money_col_step
  rw [if_pos h]
  exact col_cells_map_col_self j f rows hnull

theorem clean_money_cell_example :
    clean_money_cell (Cell.str "$1,234.50") = Cell.num (1234.5 : Rat) := by
  have hp : parse_num (remove_dollar_comma (astype_str (Cell.str "$1,234.50")))
      = some ((1 : Rat) * (((1234 : Nat) : Rat) + ((50 : Nat) : Rat) / (10 : Rat) ^ 2)) := rfl
  unfold clean_money_cell
  rw [hp]
  norm_num

theorem clean_rating_cell_info_85 :
    clean_rating_cell_info (Cell.str "85%") = Cell.num 85 := by
  have hp : parse_num (remove_percent (astype_str (Cell.str "85%")))
      = some ((1 : Rat) * ((85 : Nat) : Rat)) := rfl
  unfold clean_rating_cell_info
  rw [hp]
  norm_num

theorem clean_rating_cell_info_8_5 :
    clean_rating_cell_info (Cell.str "8%5") = Cell.num 85 := by
  have hp : parse_num (remove_percent (astype_str (Cell.str "8%5")))
      = some ((1 : Rat) * ((85 : Nat) : Rat)) := rfl
  unfold clean_rating_cell_info
  rw [hp]
  norm_num

/-! ## Claim theorems -/

/-- Claim C1: for every Dataset Cleaner variant and every input dataset, the
cleaned output's row count is at most the raw row count, and equals the raw
row count minus the number of exact-duplicate rows. -/
theorem C1_row_count_invariant :
    ∀ (header : List String) (rows : List Row),
      ((clean_box_office_rows header rows).length = rows.length - dup_count rows ∧
        (clean_box_office_rows header rows).length ≤ rows.length) ∧
      ((clean_movie_budgets_rows header rows).length = rows.length - dup_count rows ∧
        (clean_movie_budgets_rows header rows).length ≤ rows.length) ∧
      ((clean_tmdb_rows header rows).length = rows.length - dup_count rows ∧
        (clean_tmdb_rows header rows).length ≤ rows.length) ∧
      ((clean_rt_info_rows header rows).length = rows.length - dup_count rows ∧
        (clean_rt_info_rows header rows).length ≤ rows.length) ∧
      ((clean_reviews_rows header rows).length = rows.length - dup_count rows ∧
        (clean_reviews_rows header rows).length ≤ rows.length) ∧
      ((clean_imdb_table_rows header rows).length = rows.length - dup_count rows ∧
        (clean_imdb_table_rows header rows).length ≤ rows.length) := by
  intro header rows
  refine ⟨⟨clean_box_office_rows_length header rows, ?_⟩,
    ⟨clean_movie_budgets_rows_length header rows, ?_⟩,
    ⟨clean_tmdb_rows_length header rows, ?_⟩,
    ⟨clean_rt_info_rows_length header rows, ?_⟩,
    ⟨clean_reviews_rows_length header rows, ?_⟩,
    ⟨clean_imdb_table_rows_length header rows, ?_⟩⟩
  · rw [clean_box_office_rows_length header rows]; exact Nat.sub_le _ _
  · rw [clean_movie_budgets_rows_length header rows]; exact Nat.sub_le _ _
  · rw [clean_tmdb_rows_length header rows]; exact Nat.sub_le _ _
  · rw [clean_rt_info_rows_length header rows]; exact Nat.sub_le _ _
  · rw [clean_reviews_rows_length header rows]; exact Nat.sub_le _ _
  · rw [clean_imdb_table_rows_length header rows]; exact Nat.sub_le _ _

/-- Claim C2: monetary normalization of a non-numeric column removes every
literal dollar sign and comma from each cell, parses the result as a number,
maps parse failures to null and never raises (the normalizer is a total
function); the cell "$1,234.50" normalizes to the number 1234.50. -/
theorem C2_monetary_normalization :
    (∀ (s : String) (c : Char), c ∈ (remove_dollar_comma s).toList → c ≠ '$' ∧ c ≠ ',') ∧
    (∀ c : Cell, clean_money_cell c = Cell.null ∨ ∃ q, clean_money_cell c = Cell.num q) ∧
    clean_money_cell (Cell.str "$1,234.50") = Cell.num (1234.5 : Rat) ∧
    (∀ (j : Nat) (rows : List Row), is_object_col j rows = true →
      col_cells j (money_col_step clean_money_cell rows j)
        = (col_cells j rows).map clean_money_cell) :=
  ⟨remove_dollar_comma_chars, clean_money_cell_total, clean_money_cell_example,
   fun j rows h => money_col_step_object clean_money_cell rows j clean_money_cell_null h⟩

theorem C2_monetary_witness :
    ('1' ∈ (remove_dollar_comma "$1,234.50").toList ∧ '1' ≠ '$' ∧ '1' ≠ ',') ∧
    is_object_col 0 [[Cell.str "$1,234.50"]] = true ∧
    col_cells 0 (money_col_step clean_money_cell [[Cell.str "$1,234.50"]] 0)
      = (col_cells 0 [[Cell.str "$1,234.50"]]).map clean_money_cell :=
  ⟨⟨by decide, C2_monetary_normalization.1 "$1,234.50" '1' (by decide)⟩,
   by decide, C2_monetary_normalization.2.2.2 0 [[Cell.str "$1,234.50"]] (by decide)⟩

/-- Claim C3: running the Dataset Cleaner twice on the same raw input produces
identical output, and each cleaning step of the box-office cleaner
(deduplication, monetary, year, text) is idempotent when re-run on its own
output, so re-running the pipeline only overwrites the outputs with the same
content. -/
theorem C3_cleaner_idempotence :
    (∀ df : DataFrame, clean_box_office_df df = clean_box_office_df df) ∧
    (∀ rows : List Row, bom_stage1 (bom_stage1 rows) = bom_stage1 rows) ∧
    (∀ (rows : List Row) (j : Nat),
      money_col_step clean_money_cell (money_col_step clean_money_cell rows j) j
        = money_col_step clean_money_cell rows j) ∧
    (∀ (rows : List Row) (j : Nat),
      map_col j to_numeric_cell (map_col j to_numeric_cell rows)
        = map_col j to_numeric_cell rows) ∧
    (∀ (rows : List Row) (j : Nat),
      map_col j clean_text_cell (map_col j clean_text_cell rows)
        = map_col j clean_text_cell rows) :=
  ⟨fun _ => rfl, bom_stage1_idem,
   fun rows j =>
     money_col_step_idem clean_money_cell clean_money_cell_null clean_money_cell_not_str rows j,
   fun rows j => map_col_idem j to_numeric_cell rows to_numeric_cell_idem,
   fun rows j => map_col_idem j clean_text_cell rows clean_text_cell_idem⟩

/-- Claim C4 counterexample: in the budgets cleaner, the column name
"gross_release" is claimed simultaneously by the monetary category (keyword
"gross") and the date category (keyword "release"), refuting "no two
categories simultaneously claim the same column" for every column-name set. -/
theorem C4_overlap_counterexample :
    budgets_is_money "gross_release" = true ∧ budgets_is_date "gross_release" = true := by
  decide

/-- Claim C4 (amended): classification is deterministic — it depends only on
the lowercased column name — and the text category never claims a column
claimed by the monetary or date category; however monetary and date can
simultaneously claim a column whose name contains keywords of both, and such
a column is normalized by each claiming category in turn. -/
theorem C4_classification_amended :
    (∀ n₁ n₂ : String, py_lower n₁ = py_lower n₂ →
      budgets_is_money n₁ = budgets_is_money n₂ ∧
      budgets_is_date n₁ = budgets_is_date n₂ ∧
      budgets_text_guard n₁ = budgets_text_guard n₂) ∧
    (∀ n : String, budgets_text_guard n = true →
      budgets_is_money n = false ∧ budgets_is_date n = false) := by
  constructor
  · intro n₁ n₂ h
    refine ⟨?_, ?_, ?_⟩
    · simp only [budgets_is_money, lower_contains_any, h]
    · simp only [budgets_is_date, lower_contains_any, h]
    · simp only [budgets_text_guard, budgets_is_money, budgets_is_date,
        lower_contains_any, h]
  · intro n h
    unfold budgets_text_guard at h
    rw [Bool.and_eq_true, Bool.not_eq_true', Bool.not_eq_true'] at h
    exact h

theorem C4_classification_witness :
    py_lower "Budget" = py_lower "budget" ∧
    budgets_is_money "Budget" = budgets_is_money "budget" ∧
    budgets_text_guard "movie" = true ∧
    budgets_is_money "movie" = false ∧ budgets_is_date "movie" = false :=
  ⟨by decide, (C4_classification_amended.1 "Budget" "budget" (by decide)).1,
   by decide, (C4_classification_amended.2 "movie" (by decide)).1,
   (C4_classification_amended.2 "movie" (by decide)).2⟩

/-- Claim C5 counterexample: the reviews cleaner handles rating/score columns
but applies plain numeric parsing with no percent stripping, so the cell
"85%" becomes null there, not the number 85. -/
theorem C5_reviews_counterexample :
    clean_rating_cell_reviews (Cell.str "85%") = Cell.null ∧
    (Cell.null : Cell) ≠ Cell.num 85 :=
  ⟨by decide, by decide⟩

/-- Claim C5 (amended): only the critic-info variant strips percent signs —
and it removes every literal "%" character (not only a suffix) — before
parsing, with unparseable cells becoming null, so "85%" (and even "8%5")
normalizes to 85 there; the reviews variant parses directly, so "85%"
becomes null in that variant. -/
theorem C5_rating_normalization_amended :
    clean_rating_cell_info (Cell.str "85%") = Cell.num 85 ∧
    clean_rating_cell_info (Cell.str "8%5") = Cell.num 85 ∧
    (∀ (s : String) (c : Char), c ∈ (remove_percent s).toList → c ≠ '%') ∧
    (∀ c : Cell, clean_rating_cell_info c = Cell.null ∨
      ∃ q, clean_rating_cell_info c = Cell.num q) ∧
    clean_rating_cell_reviews (Cell.str "85%") = Cell.null :=
  ⟨clean_rating_cell_info_85, clean_rating_cell_info_8_5, remove_percent_chars,
   clean_rating_cell_info_total, by decide⟩

theorem C5_rating_witness :
    '8' ∈ (remove_percent "8%5").toList ∧ '8' ≠ '%' :=
  ⟨by decide, C5_rating_normalization_amended.2.2.1 "8%5" '8' (by decide)⟩

/-- Claim C6: in the cleaned box-office output, every cell of a text column is
null or a string with no edge whitespace that differs from the literal "nan",
and a null raw cell stays null through text normalization. -/
theorem C6_text_columns_clean :
    (∀ (header : List String) (rows : List Row) (j : Nat),
      j ∈ bom_text_cols header (bom_stage3 header (bom_stage2 header (bom_stage1 rows))) →
      ∀ c ∈ col_cells j (clean_box_office_rows header rows), is_clean_text c = true) ∧
    clean_text_cell Cell.null = Cell.null := by
  constructor
  · intro header rows j hj c hc
    have he : clean_box_office_rows header rows
        = text_fold (bom_text_cols header (bom_stage3 header (bom_stage2 header (bom_stage1 rows))))
            (bom_stage3 header (bom_stage2 header (bom_stage1 rows))) := rfl
    rw [he] at hc
    exact text_fold_col_clean _ _ j hj c hc
  · exact clean_text_cell_null

theorem C6_text_columns_witness :
    0 ∈ bom_text_cols ["title"]
      (bom_stage3 ["title"] (bom_stage2 ["title"] (bom_stage1 [[Cell.str " Foo "]]))) ∧
    ∀ c ∈ col_cells 0 (clean_box_office_rows ["title"] [[Cell.str " Foo "]]),
      is_clean_text c = true :=
  ⟨by decide, C6_text_columns_clean.1 ["title"] [[Cell.str " Foo "]] 0 (by decide)⟩

/-- Claim C7: when the extracted archive holds no ".db" file, the Archive
Extractor returns an absent result instead of raising, and the pipeline still
completes with every other cleaner's output and the summary. -/
theorem C7_missing_db (inp : PipelineInput)
    (hz : inp.zipExists = true)
    (hdb : (inp.extractedFiles.filter ends_with_db).isEmpty = true) :
    extract_and_clean_imdb_data inp.zipExists inp.extractedFiles inp.imdbTables
      = Except.ok none ∧
    run_pipeline inp = Except.ok
      { bom := clean_box_office_df inp.bomRaw,
        budgets := clean_movie_budgets_df inp.budgetsRaw,
        tmdb := clean_tmdb_df inp.tmdbRaw,
        rtInfo := clean_rt_info_df inp.rtInfoRaw,
        reviews := clean_reviews_df inp.reviewsRaw,
        imdb := none,
        summary := generate_cleaning_summary (clean_box_office_df inp.bomRaw)
          (clean_movie_budgets_df inp.budgetsRaw) (clean_tmdb_df inp.tmdbRaw)
          (clean_rt_info_df inp.rtInfoRaw) (clean_reviews_df inp.reviewsRaw) none } := by
  have hex : extract_and_clean_imdb_data inp.zipExists inp.extractedFiles inp.imdbTables
      = Except.ok none := by
    unfold extract_and_clean_imdb_data
    rw [hz, hdb]
    simp
  refine ⟨hex, ?_⟩
  unfold run_pipeline
  rw [hex]

/-- A concrete pipeline input whose archive holds no database file. -/
def c7_example_input : PipelineInput where
  bomRaw := ⟨["title"], [[Cell.str "A"]]⟩
  budgetsRaw := ⟨["movie"], [[Cell.str "B"]]⟩
  tmdbRaw := ⟨["title"], [[Cell.str "C"]]⟩
  rtInfoRaw := ⟨["synopsis"], [[Cell.str "D"]]⟩
  reviewsRaw := ⟨["review"], [[Cell.str "E"]]⟩
  zipExists := true
  extractedFiles := ["README.md"]
  imdbTables := []

theorem C7_missing_db_witness :
    c7_example_input.zipExists = true ∧
    (c7_example_input.extractedFiles.filter ends_with_db).isEmpty = true ∧
    extract_and_clean_imdb_data c7_example_input.zipExists c7_example_input.extractedFiles
      c7_example_input.imdbTables = Except.ok none :=
  ⟨rfl, by decide, (C7_missing_db c7_example_input rfl (by decide)).1⟩

/-- Claim C8 counterexample: a raising table read propagates out of the
extractor with the sqlite connection still open (there is no try/finally
around the table loop), refuting "the connection is closed on every path". -/
theorem C8_connection_counterexample :
    (imdb_connection_run [("movies", Except.error "table read failed")]).2 = false := rfl

/-- Claim C8 (amended): the connection is closed exactly on the paths where
every table read succeeds; when a read raises, the exception propagates
before `conn.close()` is reached and the connection is left open. -/
theorem C8_connection_amended (tables : List (String × Except String DataFrame)) :
    (imdb_connection_run tables).2 = true ↔
      ∃ r, (imdb_connection_run tables).1 = Except.ok r := by
  unfold imdb_connection_run
  cases h : read_tables_loop tables <;> simp

/-- Claim C9: both generated notebook documents have nbformat 4 and
nbformat_minor 4, contain at least one markdown and one code cell, and every
code cell has empty outputs and a null execution count. -/
theorem C9_notebook_structure :
    (create_cleaning_notebook.nbformat = 4 ∧
      create_cleaning_notebook.nbformat_minor = 4 ∧
      create_cleaning_notebook.cells.any NbCell.isMarkdown = true ∧
      create_cleaning_notebook.cells.any NbCell.isCode = true ∧
      create_cleaning_notebook.cells.all
        (fun c => !c.isCode || (c.outputsOf.isEmpty && c.execCountOf.isNone)) = true) ∧
    (create_eda_notebook.nbformat = 4 ∧
      create_eda_notebook.nbformat_minor = 4 ∧
      create_eda_notebook.cells.any NbCell.isMarkdown = true ∧
      create_eda_notebook.cells.any NbCell.isCode = true ∧
      create_eda_notebook.cells.all
        (fun c => !c.isCode || (c.outputsOf.isEmpty && c.execCountOf.isNone)) = true) :=
  ⟨⟨rfl, rfl, rfl, rfl, rfl⟩, ⟨rfl, rfl, rfl, rfl, rfl⟩⟩

/-- Claim C10: text normalization nulls any cell whose string form strips to
exactly "nan" — including genuine raw text "nan", possibly padded with
whitespace — so such a value is indistinguishable from a missing value. -/
theorem C10_nan_token_to_null :
    (∀ s : String, strip_str s = "nan" → clean_text_cell (Cell.str s) = Cell.null) ∧
    clean_text_cell (Cell.str "nan") = clean_text_cell Cell.null := by
  constructor
  · intro s h
    unfold clean_text_cell
    have ha : astype_str (Cell.str s) = s := rfl
    rw [ha, h]
    simp
  · rw [clean_text_cell_null]
    exact (by decide : clean_text_cell (Cell.str "nan") = Cell.null)

theorem C10_nan_token_witness :
    strip_str "  nan " = "nan" ∧ clean_text_cell (Cell.str "  nan ") = Cell.null :=
  ⟨by decide, C10_nan_token_to_null.1 "  nan " (by decide)⟩

end VulcanVariance
